import Mathlib

/-!
Shallow embedding of the LCOE (Levelized Cost of Energy) calculation engine.

Numbers are modelled as exact rationals (ℚ).  JavaScript arrays of numbers
become `List ℚ`.  The source helper `calculateNPVlikeExcel` mutates its
argument array in place (`cash_flows.unshift(0.0)`) before summing; since the
orchestrator `calculateLCOE` passes its local `cash_flows` array to that helper
and later returns the same array, the returned `cash_flows` field carries the
prepended leading zero.  The embedding makes that aliasing explicit.
-/

namespace LCOE

/-- CONSTANTS.hours_in_year from the source. -/
def hours_in_year : ℚ := 8760

/-- CONSTANTS.opex_escalation_rate from the source (5% annual OPEX increase). -/
def opex_escalation_rate : ℚ := 0.05

/-- CONSTANTS.degradation_rate from the source (0.5% annual panel degradation). -/
def degradation_rate : ℚ := 0.005

/-- Input record consumed by `calculateLCOE`.  Year counts are naturals;
all monetary / rate quantities are rationals. -/
structure Inputs where
  capacity : ℚ
  energy_generation : ℚ
  capex_per_mw : ℚ
  opex_percent : ℚ
  interest_rate : ℚ
  loan_tenure : ℕ
  project_lifetime : ℕ
  discount_rate : ℚ
deriving Repr, DecidableEq

/-- Result record returned by `calculateLCOE`. -/
structure Result where
  capex : ℚ
  annual_opex : ℚ
  annual_emi : ℚ
  total_om : ℚ
  total_loan : ℚ
  total_opex : ℚ
  npv_opex : ℚ
  total_energy : ℚ
  lcoe_mwh : ℚ
  lcoe_kwh : ℚ
  cue : ℚ
  cash_flows : List ℚ
deriving Repr, DecidableEq

/-- Source `calculateCAPEX`: `return capex_per_mw / capacity`. -/
def calculateCAPEX (capacity capex_per_mw : ℚ) : ℚ :=
  capex_per_mw / capacity

/-- Source `calculateEMI_likeExcel`: annual payment `principal * (annual_rate / 100)`.
The `years` argument is accepted and ignored, exactly as in the source. -/
def calculateEMI_likeExcel (principal annual_rate : ℚ) (years : ℕ) : ℚ :=
  principal * (annual_rate / 100)

/-- Source `calculateTotalOM`: accumulate `annual_opex * (1 + 0.05)^i` for
`i = 0 .. years-1` into a running total. -/
def calculateTotalOM (annual_opex : ℚ) (years : ℕ) : ℚ :=
  (List.range years).foldl
    (fun total i => total + annual_opex * (1 + opex_escalation_rate) ^ i) 0

/-- Source `calculateTotalEnergy`: accumulate `annual_energy * (1 - 0.005)^i`
for `i = 0 .. years-1` into a running total. -/
def calculateTotalEnergy (annual_energy : ℚ) (years : ℕ) : ℚ :=
  (List.range years).foldl
    (fun total i => total + annual_energy * (1 - degradation_rate) ^ i) 0

/-- The summation loop shared by the source NPV functions: starting at array
index offset `t`, add `cf / (1 + rate) ^ (t + 1)` for each successive cash
flow `cf` (the source writes `cash_flows[t] / Math.pow(1 + rate, t + 1)`
accumulated over `t = 0 .. length-1`; recursion over the list with an explicit
index is the same sum). -/
def npvFrom (rate : ℚ) : ℕ → List ℚ → ℚ
  | _, [] => 0
  | t, cf :: rest => cf / (1 + rate) ^ (t + 1) + npvFrom rate (t + 1) rest

/-- Source `calculateNPV`: `rate = discount_rate / 100`, then sum
`cash_flows[t] / (1 + rate)^(t+1)` over the array. -/
def calculateNPV (discount_rate : ℚ) (cash_flows : List ℚ) : ℚ :=
  npvFrom (discount_rate / 100) 0 cash_flows

/-- Source `calculateNPVlikeExcel`: `cash_flows.unshift(0.0)` then the same
summation as `calculateNPV`.  The prepended zero occupies index 0 of the
mutated array. -/
def calculateNPVlikeExcel (discount_rate : ℚ) (cash_flows : List ℚ) : ℚ :=
  npvFrom (discount_rate / 100) 0 ((0 : ℚ) :: cash_flows)

/-- Source `calculateCUE`: `if (capacity === 0) return 0;` then
`annual_energy / (capacity * 8760)`. -/
def calculateCUE (annual_energy capacity : ℚ) : ℚ :=
  if capacity = 0 then 0 else annual_energy / (capacity * hours_in_year)

/-- Step 1 of `calculateLCOE`: `const capex = calculateCAPEX(capacity, capex_per_mw)`. -/
def lcoeCapex (inputs : Inputs) : ℚ :=
  calculateCAPEX inputs.capacity inputs.capex_per_mw

/-- Step 2 of `calculateLCOE`: `const annual_opex = (capex * opex_percent) / 100`. -/
def lcoeAnnualOpex (inputs : Inputs) : ℚ :=
  lcoeCapex inputs * inputs.opex_percent / 100

/-- Step 2 of `calculateLCOE`:
`const annual_emi = calculateEMI_likeExcel(capex, interest_rate, loan_tenure)`. -/
def lcoeAnnualEmi (inputs : Inputs) : ℚ :=
  calculateEMI_likeExcel (lcoeCapex inputs) inputs.interest_rate inputs.loan_tenure

/-- Step 5 of `calculateLCOE`: the annual cash-flow array as assembled by the
loop, before `calculateNPVlikeExcel` mutates it.  Entry for `year` is
`annual_opex * (1 + 0.05)^year + (year < loan_tenure ? annual_emi : 0)`. -/
def lcoeCashFlows (inputs : Inputs) : List ℚ :=
  (List.range inputs.project_lifetime).map (fun year =>
    lcoeAnnualOpex inputs * (1 + opex_escalation_rate) ^ year +
      (if year < inputs.loan_tenure then lcoeAnnualEmi inputs else 0))

/-- The financing summand of a given year of the cash-flow assembly loop:
`year < loan_tenure ? annual_emi : 0`. -/
def emiComponent (inputs : Inputs) (year : ℕ) : ℚ :=
  if year < inputs.loan_tenure then lcoeAnnualEmi inputs else 0

/-- Step 6 of `calculateLCOE`:
`const npv_opex = calculateNPVlikeExcel(discount_rate, cash_flows)`. -/
def lcoeNpvOpex (inputs : Inputs) : ℚ :=
  calculateNPVlikeExcel inputs.discount_rate (lcoeCashFlows inputs)

/-- Step 7 of `calculateLCOE`:
`calculateTotalEnergy(energy_generation / capacity, project_lifetime)`. -/
def lcoeTotalEnergy (inputs : Inputs) : ℚ :=
  calculateTotalEnergy (inputs.energy_generation / inputs.capacity) inputs.project_lifetime

/-- Step 8 of `calculateLCOE`:
`total_energy > 0 ? (capex + npv_opex) / total_energy : 0`. -/
def lcoeMwh (inputs : Inputs) : ℚ :=
  if 0 < lcoeTotalEnergy inputs then
    (lcoeCapex inputs + lcoeNpvOpex inputs) / lcoeTotalEnergy inputs
  else 0

/-- Source `calculateLCOE` orchestrator.  The returned `cash_flows` field is
the same array that `calculateNPVlikeExcel` received and mutated with
`unshift(0.0)`, hence the leading zero here. -/
def calculateLCOE (inputs : Inputs) : Result :=
  { capex := lcoeCapex inputs
    annual_opex := lcoeAnnualOpex inputs
    annual_emi := lcoeAnnualEmi inputs
    total_om := calculateTotalOM (lcoeAnnualOpex inputs) inputs.project_lifetime
    total_loan := lcoeAnnualEmi inputs * (inputs.loan_tenure : ℚ)
    total_opex := calculateTotalOM (lcoeAnnualOpex inputs) inputs.project_lifetime +
      lcoeAnnualEmi inputs * (inputs.loan_tenure : ℚ)
    npv_opex := lcoeNpvOpex inputs
    total_energy := lcoeTotalEnergy inputs
    lcoe_mwh := lcoeMwh inputs
    lcoe_kwh := lcoeMwh inputs / 1000
    cue := calculateCUE inputs.energy_generation inputs.capacity
    cash_flows := (0 : ℚ) :: lcoeCashFlows inputs }

/-- One row pushed by `generateSensitivityAnalysis`. -/
structure SensitivityPoint where
  rate : ℚ
  lcoe_kwh : ℚ
  lcoe_mwh : ℚ
deriving Repr, DecidableEq

/-- The discount rates visited by the source loop
`for (let rate = min_rate; rate <= max_rate; rate += step)` at the default
arguments `min_rate = 5`, `max_rate = 15`, `step = 0.5`: the 21 rates
5, 5.5, …, 15 (all the float additions involved are exact). -/
def sweepRates : List ℚ :=
  (List.range 21).map (fun k : ℕ => 5 + (k : ℚ) / 2)

/-- Source `generateSensitivityAnalysis` at its default range arguments: for
each swept rate, rerun `calculateLCOE` on a copy of the base inputs with only
`discount_rate` overridden and record rate / lcoe_kwh / lcoe_mwh. -/
def generateSensitivityAnalysis (base_inputs : Inputs) : List SensitivityPoint :=
  sweepRates.map (fun rate =>
    { rate := rate
      lcoe_kwh := (calculateLCOE { base_inputs with discount_rate := rate }).lcoe_kwh
      lcoe_mwh := (calculateLCOE { base_inputs with discount_rate := rate }).lcoe_mwh })

/-- Concrete input record: unit capacity and energy, 100% OPEX share, one-year
project, 100% discount rate.  Its assembled annual series is the single flow
`[100]`. -/
def ex1 : Inputs :=
  { capacity := 1, energy_generation := 1, capex_per_mw := 100, opex_percent := 100,
    interest_rate := 0, loan_tenure := 0, project_lifetime := 1, discount_rate := 100 }

/-- Concrete input record with a one-year loan inside a two-year lifetime. -/
def ex2 : Inputs :=
  { capacity := 1, energy_generation := 1, capex_per_mw := 100, opex_percent := 100,
    interest_rate := 50, loan_tenure := 1, project_lifetime := 2, discount_rate := 10 }

/-- Concrete input record with a negative (hence nonpositive) capacity. -/
def ex3 : Inputs :=
  { capacity := -1, energy_generation := 1, capex_per_mw := 100, opex_percent := 0,
    interest_rate := 0, loan_tenure := 0, project_lifetime := 1, discount_rate := 10 }

/-- Concrete input record whose generation is zero, so total energy is zero. -/
def ex4 : Inputs :=
  { capacity := 1, energy_generation := 0, capex_per_mw := 100, opex_percent := 0,
    interest_rate := 0, loan_tenure := 0, project_lifetime := 1, discount_rate := 10 }

/-- Concrete base record for the sensitivity sweep: single year, flows `[100]`,
unit energy. -/
def ex5 : Inputs :=
  { capacity := 1, energy_generation := 1, capex_per_mw := 1000, opex_percent := 10,
    interest_rate := 0, loan_tenure := 0, project_lifetime := 1, discount_rate := 9 }

/-- Folding `+ f i` over `List.range n` is the `Finset.range` sum. -/
theorem foldl_add_range_eq_sum (f : ℕ → ℚ) (n : ℕ) :
    (List.range n).foldl (fun total i => total + f i) 0 =
      ∑ i in Finset.range n, f i := by
  induction n with
  | zero => simp
  | succ n ih =>
    rw [List.range_succ, List.foldl_append, ih, Finset.sum_range_succ]
    simp

/-- The NPV summation loop, written as a `Finset.range` sum over list entries:
starting at offset `t`, entry `i` of the list is divided by
`(1 + rate) ^ (t + i + 1)`. -/
theorem npvFrom_eq_sum (rate : ℚ) (flows : List ℚ) :
    ∀ t : ℕ, npvFrom rate t flows =
      ∑ i in Finset.range flows.length, flows.getD i 0 / (1 + rate) ^ (t + i + 1) := by
  induction flows with
  | nil => intro t; simp [npvFrom]
  | cons cf rest ih =>
    intro t
    rw [npvFrom, ih (t + 1), List.length_cons, Finset.sum_range_succ']
    simp only [List.getD_cons_succ, List.getD_cons_zero]
    rw [add_comm]
    congr 1
    refine Finset.sum_congr rfl (fun i _ => ?_)
    have h : t + 1 + i + 1 = t + (i + 1) + 1 := by omega
    rw [h]

/-- The assembled annual cash-flow series has one entry per project year. -/
theorem lcoeCashFlows_length (inputs : Inputs) :
    (lcoeCashFlows inputs).length = inputs.project_lifetime := by
  simp [lcoeCashFlows]

/-- Claim C1 (amended): npv_opex prepends a leading zero for Year 0, and each
actual cash flow at 0-based index i of the assembled annual series is
discounted by (1 + discount_rate/100)^(i+2) — the first real cash flow is
treated as occurring at the end of year 2. -/
theorem npv_opex_discounts_at_i_plus_two (inputs : Inputs) :
    (calculateLCOE inputs).npv_opex =
      ∑ i in Finset.range inputs.project_lifetime,
        (lcoeCashFlows inputs).getD i 0 / (1 + inputs.discount_rate / 100) ^ (i + 2) := by
  show lcoeNpvOpex inputs = _
  rw [lcoeNpvOpex, calculateNPVlikeExcel, npvFrom,
    npvFrom_eq_sum (inputs.discount_rate / 100) (lcoeCashFlows inputs) 1,
    lcoeCashFlows_length]
  rw [zero_div, zero_add]
  refine Finset.sum_congr rfl (fun i _ => ?_)
  ring_nf

/-- Claim C1 counterexample: on `ex1` the returned npv_opex (25) differs from
the value the claimed convention prescribes, namely discounting the assembled
flow at index i by (1 + rate)^(i+1) — which is exactly the source function
`calculateNPV` — (50). -/
theorem npv_opex_convention_cex :
    (calculateLCOE ex1).npv_opex ≠ calculateNPV ex1.discount_rate (lcoeCashFlows ex1) := by
  show lcoeNpvOpex ex1 ≠ _
  norm_num [lcoeNpvOpex, calculateNPVlikeExcel, calculateNPV, npvFrom, lcoeCashFlows,
    lcoeAnnualOpex, lcoeAnnualEmi, lcoeCapex, calculateCAPEX, calculateEMI_likeExcel,
    opex_escalation_rate, ex1, List.range_succ]

/-- Claim C2 (code divergence): on `ex1`, whose project lifetime is 1, the
returned cash_flows array has length 2 — `calculateNPVlikeExcel` prepends a
zero to the caller's array in place before the array is returned. -/
theorem cash_flows_length_bug :
    ex1.project_lifetime = 1 ∧ (calculateLCOE ex1).cash_flows.length = 2 := by
  refine ⟨rfl, ?_⟩
  simp [calculateLCOE, lcoeCashFlows, ex1]

/-- Claim C3 (code divergence): on `ex3`, whose capacity is −1 ≤ 0,
calculateLCOE performs no validation and returns a fully computed result
record (capex = 100 / (−1) = −100, a populated cash-flow array, a computed
CUE), not an error or flagged-invalid result. -/
theorem no_validation_bug :
    ex3.capacity ≤ 0 ∧ (calculateLCOE ex3).capex = -100 ∧
      (calculateLCOE ex3).cash_flows = [0, 0] ∧
      (calculateLCOE ex3).cue = -1 / 8760 := by
  refine ⟨by norm_num [ex3], ?_, ?_, ?_⟩
  · show lcoeCapex ex3 = -100
    norm_num [lcoeCapex, calculateCAPEX, ex3]
  · show (0 : ℚ) :: lcoeCashFlows ex3 = [0, 0]
    norm_num [lcoeCashFlows, lcoeAnnualOpex, lcoeAnnualEmi, lcoeCapex, calculateCAPEX,
      calculateEMI_likeExcel, opex_escalation_rate, ex3, List.range_succ]
  · show calculateCUE ex3.energy_generation ex3.capacity = -1 / 8760
    norm_num [calculateCUE, hours_in_year, ex3]

/-- Claim C7 (code divergence): on `ex2` (loan_tenure = 1, lifetime = 2) the
returned cash_flows entry at index 1 — an index at or past the loan tenure —
is 150, which still contains the financing payment, and differs from the
escalated operating cost for year 1 plus zero financing (105): the in-place
prepend shifted every annual flow up one slot. -/
theorem financing_cutoff_bug :
    ex2.loan_tenure ≤ 1 ∧ 1 < ex2.project_lifetime ∧
      (calculateLCOE ex2).cash_flows.getD 1 0 = 150 ∧
      (calculateLCOE ex2).cash_flows.getD 1 0 ≠
        (calculateLCOE ex2).annual_opex * (1 + opex_escalation_rate) ^ 1 + 0 := by
  have h150 : (calculateLCOE ex2).cash_flows.getD 1 0 = 150 := by
    show ((0 : ℚ) :: lcoeCashFlows ex2).getD 1 0 = 150
    norm_num [lcoeCashFlows, lcoeAnnualOpex, lcoeAnnualEmi, lcoeCapex, calculateCAPEX,
      calculateEMI_likeExcel, opex_escalation_rate, ex2, List.range_succ]
  refine ⟨by norm_num [ex2], by norm_num [ex2], h150, ?_⟩
  rw [h150]
  show (150 : ℚ) ≠ lcoeAnnualOpex ex2 * (1 + opex_escalation_rate) ^ 1 + 0
  norm_num [lcoeAnnualOpex, lcoeCapex, calculateCAPEX, opex_escalation_rate, ex2]

/-- Claim C4: the capex field returned by calculateLCOE is the supplied CAPEX
rate divided by the capacity. -/
theorem capex_is_rate_div_capacity (inputs : Inputs) :
    (calculateLCOE inputs).capex = inputs.capex_per_mw / inputs.capacity := rfl

/-- Claim C5: the total energy returned by calculateLCOE is the capacity-normalized
Year-1 output summed over the lifetime with geometric 0.5% degradation from
Year 0. -/
theorem total_energy_is_degraded_sum (inputs : Inputs) :
    (calculateLCOE inputs).total_energy =
      ∑ i in Finset.range inputs.project_lifetime,
        inputs.energy_generation / inputs.capacity * (1 - 0.005) ^ i := by
  show calculateTotalEnergy (inputs.energy_generation / inputs.capacity)
      inputs.project_lifetime = _
  unfold calculateTotalEnergy degradation_rate
  exact foldl_add_range_eq_sum _ _

/-- Entries of the assembled annual series decompose into the escalated
operating cost for the year plus the financing summand. -/
theorem lcoeCashFlows_getD (inputs : Inputs) (year : ℕ)
    (h : year < inputs.project_lifetime) :
    (lcoeCashFlows inputs).getD year 0 =
      lcoeAnnualOpex inputs * (1 + opex_escalation_rate) ^ year + emiComponent inputs year := by
  rw [lcoeCashFlows, emiComponent,
    List.getD_eq_getElem _ _ (by simpa using h), List.getElem_map, List.getElem_range]

/-- Claim C6: the annual financing payment is simple interest on the total
capex; the cash-flow assembly applies exactly that payment in every year
before the loan tenure; and a zero loan tenure contributes zero financing cost
in every year. -/
theorem annual_emi_simple_interest (inputs : Inputs) :
    (calculateLCOE inputs).annual_emi =
        (calculateLCOE inputs).capex * (inputs.interest_rate / 100)
      ∧ (∀ year, year < inputs.project_lifetime →
          (lcoeCashFlows inputs).getD year 0 =
            lcoeAnnualOpex inputs * (1 + opex_escalation_rate) ^ year +
              emiComponent inputs year)
      ∧ (∀ year, year < inputs.loan_tenure →
          emiComponent inputs year = (calculateLCOE inputs).annual_emi)
      ∧ (inputs.loan_tenure = 0 → ∀ year, emiComponent inputs year = 0) := by
  refine ⟨rfl, fun year h => lcoeCashFlows_getD inputs year h, fun year h => ?_, fun h0 year => ?_⟩
  · rw [emiComponent, if_pos h]
    rfl
  · rw [emiComponent, if_neg (by omega)]

/-- Claim C6 witness: the conjuncts of `annual_emi_simple_interest`
instantiated at the concrete record `ex2` and year 0. -/
theorem annual_emi_simple_interest_witness :
    (calculateLCOE ex2).annual_emi = (calculateLCOE ex2).capex * (ex2.interest_rate / 100)
      ∧ emiComponent ex2 0 = (calculateLCOE ex2).annual_emi := by
  obtain ⟨h1, _, h3, _⟩ := annual_emi_simple_interest ex2
  exact ⟨h1, h3 0 (by norm_num [ex2])⟩

/-- Claim C8: when total energy is not greater than zero both levelized-cost
figures are the sentinel 0, and in every case lcoe_kwh is exactly lcoe_mwh
divided by 1000. -/
theorem lcoe_sentinel_and_units (inputs : Inputs) :
    ((calculateLCOE inputs).total_energy ≤ 0 →
        (calculateLCOE inputs).lcoe_mwh = 0 ∧ (calculateLCOE inputs).lcoe_kwh = 0)
      ∧ (calculateLCOE inputs).lcoe_kwh = (calculateLCOE inputs).lcoe_mwh / 1000 := by
  refine ⟨fun hE => ?_, rfl⟩
  have hE2 : lcoeTotalEnergy inputs ≤ 0 := hE
  have hm : (calculateLCOE inputs).lcoe_mwh = 0 := by
    show lcoeMwh inputs = 0
    rw [lcoeMwh, if_neg (not_lt.mpr hE2)]
  refine ⟨hm, ?_⟩
  show lcoeMwh inputs / 1000 = 0
  have hm2 : lcoeMwh inputs = 0 := hm
  rw [hm2, zero_div]

/-- Claim C8 witness: `lcoe_sentinel_and_units` applied to the concrete record
`ex4`, whose total energy evaluates to 0. -/
theorem lcoe_sentinel_and_units_witness :
    (calculateLCOE ex4).total_energy ≤ 0 ∧ (calculateLCOE ex4).lcoe_mwh = 0 ∧
      (calculateLCOE ex4).lcoe_kwh = 0 := by
  have hE : (calculateLCOE ex4).total_energy ≤ 0 := by
    show lcoeTotalEnergy ex4 ≤ 0
    norm_num [lcoeTotalEnergy, calculateTotalEnergy, degradation_rate, ex4, List.range_succ]
  obtain ⟨h1, _⟩ := lcoe_sentinel_and_units ex4
  exact ⟨hE, (h1 hE).1, (h1 hE).2⟩

/-- Claim C10: capacity utilization is total-defined — zero capacity returns
the sentinel 0, any other capacity returns annual_energy / (capacity * 8760). -/
theorem calculateCUE_total (annual_energy capacity : ℚ) :
    calculateCUE annual_energy 0 = 0
      ∧ (capacity ≠ 0 →
          calculateCUE annual_energy capacity = annual_energy / (capacity * 8760)) := by
  refine ⟨by rw [calculateCUE, if_pos rfl], fun h => ?_⟩
  rw [calculateCUE, if_neg h, hours_in_year]

/-- Claim C10 witness: `calculateCUE_total` applied at annual_energy = 5 and
the nonzero capacity 2. -/
theorem calculateCUE_total_witness :
    calculateCUE 5 2 = 5 / (2 * 8760) :=
  (calculateCUE_total 5 2).2 (by norm_num)

/-- The NPV summation loop is antitone in the rate when all cash flows are
nonnegative and the rates are nonnegative. -/
theorem npvFrom_anti (r1 r2 : ℚ) (h0 : 0 ≤ r1) (h12 : r1 ≤ r2) :
    ∀ (t : ℕ) (flows : List ℚ), (∀ f ∈ flows, 0 ≤ f) →
      npvFrom r2 t flows ≤ npvFrom r1 t flows := by
  intro t flows
  induction flows generalizing t with
  | nil => intro _; simp [npvFrom]
  | cons cf rest ih =>
    intro hflows
    have hcf : 0 ≤ cf := hflows cf (List.mem_cons_self cf rest)
    have hrest : ∀ f ∈ rest, 0 ≤ f := fun f hf => hflows f (List.mem_cons_of_mem cf hf)
    have hb1 : (0 : ℚ) < (1 + r1) ^ (t + 1) := pow_pos (by linarith) _
    have hb2 : (1 + r1) ^ (t + 1) ≤ (1 + r2) ^ (t + 1) :=
      pow_le_pow_left₀ (by linarith) (by linarith) _
    have hterm : cf / (1 + r2) ^ (t + 1) ≤ cf / (1 + r1) ^ (t + 1) :=
      div_le_div_of_nonneg_left hcf hb1 hb2
    show cf / (1 + r2) ^ (t + 1) + npvFrom r2 (t + 1) rest ≤
      cf / (1 + r1) ^ (t + 1) + npvFrom r1 (t + 1) rest
    exact add_le_add hterm (ih (t + 1) hrest)

/-- Every entry of the assembled annual cash-flow series is nonnegative when
capacity is positive and the CAPEX rate, OPEX share and interest rate are
nonnegative. -/
theorem lcoeCashFlows_nonneg (base : Inputs) (hcap : 0 < base.capacity)
    (hcapex : 0 ≤ base.capex_per_mw) (hopex : 0 ≤ base.opex_percent)
    (hint : 0 ≤ base.interest_rate) :
    ∀ f ∈ lcoeCashFlows base, 0 ≤ f := by
  intro f hf
  rw [lcoeCashFlows, List.mem_map] at hf
  obtain ⟨year, -, rfl⟩ := hf
  have hcx : 0 ≤ lcoeCapex base := div_nonneg hcapex hcap.le
  have hop : 0 ≤ lcoeAnnualOpex base := by
    rw [lcoeAnnualOpex]
    exact div_nonneg (mul_nonneg hcx hopex) (by norm_num)
  have hemi : 0 ≤ lcoeAnnualEmi base := by
    rw [lcoeAnnualEmi, calculateEMI_likeExcel]
    exact mul_nonneg hcx (div_nonneg hint (by norm_num))
  have hpow : (0 : ℚ) ≤ (1 + opex_escalation_rate) ^ year := by
    apply pow_nonneg
    norm_num [opex_escalation_rate]
  refine add_nonneg (mul_nonneg hop hpow) ?_
  split
  · exact hemi
  · exact le_refl 0

/-- Overriding only the discount rate leaves the lcoe_mwh figure antitone in
the rate, for nonnegative assembled cash flows. -/
theorem lcoeMwh_discount_anti (base : Inputs) (r1 r2 : ℚ) (h0 : 0 ≤ r1) (h12 : r1 ≤ r2)
    (hflows : ∀ f ∈ lcoeCashFlows base, 0 ≤ f) :
    lcoeMwh { base with discount_rate := r2 } ≤ lcoeMwh { base with discount_rate := r1 } := by
  have hnpv : calculateNPVlikeExcel r2 (lcoeCashFlows base) ≤
      calculateNPVlikeExcel r1 (lcoeCashFlows base) := by
    rw [calculateNPVlikeExcel, calculateNPVlikeExcel]
    refine npvFrom_anti (r1 / 100) (r2 / 100) (div_nonneg h0 (by norm_num))
      (by linarith) 0 _ ?_
    intro f hf
    rcases List.mem_cons.mp hf with h | h
    · simp [h]
    · exact hflows f h
  show (if 0 < lcoeTotalEnergy base then
          (lcoeCapex base + calculateNPVlikeExcel r2 (lcoeCashFlows base)) /
            lcoeTotalEnergy base
        else 0) ≤
      (if 0 < lcoeTotalEnergy base then
          (lcoeCapex base + calculateNPVlikeExcel r1 (lcoeCashFlows base)) /
            lcoeTotalEnergy base
        else 0)
  by_cases hE : 0 < lcoeTotalEnergy base
  · rw [if_pos hE, if_pos hE]
    exact (div_le_div_iff_of_pos_right hE).mpr (by linarith)
  · rw [if_neg hE, if_neg hE]

/-- Overriding only the discount rate leaves the lcoe_kwh figure antitone in
the rate, for nonnegative assembled cash flows. -/
theorem lcoe_kwh_discount_anti (base : Inputs) (r1 r2 : ℚ) (h0 : 0 ≤ r1) (h12 : r1 ≤ r2)
    (hflows : ∀ f ∈ lcoeCashFlows base, 0 ≤ f) :
    (calculateLCOE { base with discount_rate := r2 }).lcoe_kwh ≤
      (calculateLCOE { base with discount_rate := r1 }).lcoe_kwh := by
  have hm := lcoeMwh_discount_anti base r1 r2 h0 h12 hflows
  show lcoeMwh { base with discount_rate := r2 } / 1000 ≤
    lcoeMwh { base with discount_rate := r1 } / 1000
  exact (div_le_div_iff_of_pos_right (by norm_num)).mpr hm

/-- Entry k of the sensitivity sweep is the point produced by rerunning
calculateLCOE at discount rate 5 + k/2. -/
theorem sweep_getD (base : Inputs) (k : ℕ) (hk : k < 21) :
    (generateSensitivityAnalysis base).getD k { rate := 0, lcoe_kwh := 0, lcoe_mwh := 0 } =
      { rate := 5 + (k : ℚ) / 2
        lcoe_kwh := (calculateLCOE { base with discount_rate := 5 + (k : ℚ) / 2 }).lcoe_kwh
        lcoe_mwh := (calculateLCOE { base with discount_rate := 5 + (k : ℚ) / 2 }).lcoe_mwh } := by
  rw [generateSensitivityAnalysis, sweepRates, List.map_map,
    List.getD_eq_getElem _ _ (by simpa using hk), List.getElem_map, List.getElem_range]
  simp [Function.comp]

/-- Claim C9 counterexample: over the fixed base record `ex5` the sweep is
strictly decreasing between its first two trials (rates 5 and 5.5), so the
sequence is not monotonically non-decreasing. -/
theorem sweep_not_nondecreasing :
    ((generateSensitivityAnalysis ex5).getD 1 { rate := 0, lcoe_kwh := 0, lcoe_mwh := 0 }).lcoe_kwh <
      ((generateSensitivityAnalysis ex5).getD 0 { rate := 0, lcoe_kwh := 0, lcoe_mwh := 0 }).lcoe_kwh := by
  rw [sweep_getD ex5 1 (by norm_num), sweep_getD ex5 0 (by norm_num)]
  show (calculateLCOE { ex5 with discount_rate := 5 + ((1 : ℕ) : ℚ) / 2 }).lcoe_kwh <
    (calculateLCOE { ex5 with discount_rate := 5 + ((0 : ℕ) : ℚ) / 2 }).lcoe_kwh
  norm_num [calculateLCOE, lcoeMwh, lcoeTotalEnergy, lcoeCapex, lcoeNpvOpex,
    calculateCAPEX, calculateTotalEnergy, calculateNPVlikeExcel, npvFrom, lcoeCashFlows,
    lcoeAnnualOpex, lcoeAnnualEmi, calculateEMI_likeExcel, opex_escalation_rate,
    degradation_rate, ex5, List.range_succ]

/-- Claim C9 (amended): for a fixed base record with positive capacity and
nonnegative CAPEX rate, OPEX share and interest rate, the swept
levelized_cost_per_kwh sequence is monotonically non-increasing in the
discount rate. -/
theorem sweep_nonincreasing (base : Inputs) (hcap : 0 < base.capacity)
    (hcapex : 0 ≤ base.capex_per_mw) (hopex : 0 ≤ base.opex_percent)
    (hint : 0 ≤ base.interest_rate) (i j : ℕ) (hij : i ≤ j) (hj : j < 21) :
    ((generateSensitivityAnalysis base).getD j { rate := 0, lcoe_kwh := 0, lcoe_mwh := 0 }).lcoe_kwh ≤
      ((generateSensitivityAnalysis base).getD i { rate := 0, lcoe_kwh := 0, lcoe_mwh := 0 }).lcoe_kwh := by
  have hi : i < 21 := lt_of_le_of_lt hij hj
  rw [sweep_getD base i hi, sweep_getD base j hj]
  have hflows := lcoeCashFlows_nonneg base hcap hcapex hopex hint
  have h5i : (0 : ℚ) ≤ 5 + (i : ℚ) / 2 := by positivity
  have hij2 : 5 + (i : ℚ) / 2 ≤ 5 + (j : ℚ) / 2 := by
    have hc : (i : ℚ) ≤ (j : ℚ) := Nat.cast_le.mpr hij
    linarith
  simpa using lcoe_kwh_discount_anti base (5 + (i : ℚ) / 2) (5 + (j : ℚ) / 2) h5i hij2 hflows

/-- Claim C9 witness: `sweep_nonincreasing` applied at the concrete base
record `ex5` and sweep positions 0 and 1. -/
theorem sweep_nonincreasing_witness :
    ((generateSensitivityAnalysis ex5).getD 1 { rate := 0, lcoe_kwh := 0, lcoe_mwh := 0 }).lcoe_kwh ≤
      ((generateSensitivityAnalysis ex5).getD 0 { rate := 0, lcoe_kwh := 0, lcoe_mwh := 0 }).lcoe_kwh :=
  sweep_nonincreasing ex5 (by norm_num [ex5]) (by norm_num [ex5]) (by norm_num [ex5])
    (by norm_num [ex5]) 0 1 (by norm_num) (by norm_num)

end LCOE
